import Mathlib

/-!
Verification of the session core of `chat.py` (terminal ChatGPT client).

The development shallowly embeds the program state and the operations of
`chat.py`: the `CHATGPT` class (transcript `messages`, token counters,
`send`, `save_chat_history`, `modify_system_prompt`), the `ChatSettings`
class (`set_timeout`, mode toggles), the slash-command interpreter
`handle_command`, `load_chat_history`, and one iteration of the `main`
input loop.  Network outcomes of the single `requests.post` call in `send`
are abstracted into the `NetOutcome` datatype whose constructors are in
one-to-one correspondence with the branches of the try/except in `send`
(a well-formed 2xx JSON response, an HTTP 400 validation error, a
`KeyboardInterrupt`, a `ReadTimeout`, another `RequestException`, and any
other exception).  Console and log output and file writes are recorded as
an explicit list of `Effect`s.

The CPython string primitives that the source uses (`str.lower`,
`str.strip`, `str.split`, `str.startswith`, `str.join`, `float(str)`,
`str(int)`, `str(float)`) are modelled by structurally recursive
functions on the character lists of Lean strings, so that every
definition evaluates inside the kernel.  `str.lower` is modelled on the
ASCII range (the only range the program's command strings use), and
`float` values are modelled by exact decimals `Dec` (mantissa and decimal
exponent), which is faithful for every value this program produces,
since the program never performs float arithmetic: it only parses,
stores, and stringifies timeouts.
-/

namespace Chat

/-- Model of CPython `str.lower` on one character: basic latin letters
`A`–`Z` map to `a`–`z`, everything else is unchanged. -/
def pyLowerChar (c : Char) : Char :=
  if c.isUpper then Char.ofNat (c.toNat + 32) else c

/-- Model of CPython `str.lower` (ASCII range). -/
def pyLower (s : String) : String := ⟨s.data.map pyLowerChar⟩

/-- Model of CPython `str.strip` with no argument: remove leading and
trailing whitespace. -/
def pyStripData (cs : List Char) : List Char :=
  ((cs.dropWhile Char.isWhitespace).reverse.dropWhile Char.isWhitespace).reverse

/-- Model of CPython `str.strip` on strings. -/
def pyStrip (s : String) : String := ⟨pyStripData s.data⟩

/-- Helper for `pySplitWs`: split on runs of whitespace, accumulator holds
the current word reversed. -/
def pySplitWsAux : List Char → List Char → List String
  | [], acc => if acc = [] then [] else [⟨acc.reverse⟩]
  | c :: cs, acc =>
    if c.isWhitespace then
      (if acc = [] then pySplitWsAux cs [] else ⟨acc.reverse⟩ :: pySplitWsAux cs [])
    else pySplitWsAux cs (c :: acc)

/-- Model of CPython `str.split()` with no argument: split on runs of
whitespace, discarding empty words. -/
def pySplitWs (s : String) : List String := pySplitWsAux s.data []

/-- Helper for `pySplitChar`: split at every occurrence of `sep`. -/
def pySplitCharAux (sep : Char) : List Char → List Char → List (List Char)
  | [], acc => [acc.reverse]
  | c :: cs, acc =>
    if c = sep then acc.reverse :: pySplitCharAux sep cs []
    else pySplitCharAux sep cs (c :: acc)

/-- Model of CPython `str.split(sep)` for a one-character separator
(used by the source for `'.'` and `'\n'`). -/
def pySplitChar (sep : Char) (cs : List Char) : List (List Char) :=
  pySplitCharAux sep cs []

/-- Model of CPython `str.startswith`. -/
def pyStartsWith (s p : String) : Bool := p.data.isPrefixOf s.data

/-- Model of CPython `sep.join(xs)`. -/
def pyJoin (sep : String) : List String → String
  | [] => ""
  | [x] => x
  | x :: xs => x ++ sep ++ pyJoin sep xs

/-- Value of a nonempty list of decimal digit characters. -/
def digitsToNat (cs : List Char) : Nat :=
  cs.foldl (fun a c => 10 * a + (c.toNat - 48)) 0

/-- Model of CPython `str(n)` for a natural number. -/
def natStr (n : Nat) : String := ⟨Nat.toDigits 10 n⟩

/-- Character list of `str(n)` for an integer `n`. -/
def intStrData (n : Int) : List Char :=
  (if n < 0 then ['-'] else []) ++ Nat.toDigits 10 n.natAbs

/-- Model of CPython `str(n)` for an integer. -/
def intStr (n : Int) : String := ⟨intStrData n⟩

/-- Exact decimal: `num / 10 ^ exp`.  Models the Python float values this
program produces (it only ever parses decimal literals and never
computes with floats). -/
structure Dec where
  num : Int
  exp : Nat
deriving DecidableEq, Repr

/-- Rational value denoted by a `Dec`; `⟨30, 0⟩` denotes `30.0`. -/
def Dec.val (d : Dec) : Rat := (d.num : Rat) / (10 : Rat) ^ d.exp

/-- Sign handling of CPython `float(str)`: an optional leading `-` or `+`. -/
def pySign : List Char → Bool × List Char
  | '-' :: r => (true, r)
  | '+' :: r => (false, r)
  | r => (false, r)

/-- Model of CPython `float(str)` on decimal literals (optional sign,
digits with at most one decimal point; exponent, `inf` and `nan` forms
are not used by this program and parse to `none` here, which is
conservative only for inputs the program never sees). -/
def pyFloat (s : String) : Option Dec :=
  let t := pyStripData s.data
  let sg := pySign t
  let neg := sg.fst
  let r := sg.snd
  let mk : Nat → Nat → Option Dec := fun m e =>
    some ⟨if neg then -(m : Int) else (m : Int), e⟩
  match pySplitChar '.' r with
  | [a] =>
    if a ≠ [] ∧ a.all Char.isDigit then mk (digitsToNat a) 0 else none
  | [a, b] =>
    if (a ++ b) ≠ [] ∧ (a ++ b).all Char.isDigit then
      mk (digitsToNat a * 10 ^ b.length + digitsToNat b) b.length
    else none
  | _ => none

/-- Drop trailing `'0'` characters. -/
def stripTrailingZeros (cs : List Char) : List Char :=
  (cs.reverse.dropWhile (· = '0')).reverse

/-- Digits of the fractional part of a `Dec`, left-padded to `e` digits. -/
def fracDigits (fp e : Nat) : List Char :=
  if e = 0 then []
  else List.replicate (e - (Nat.toDigits 10 fp).length) '0' ++ Nat.toDigits 10 fp

/-- Character list of the Python `str()` of a decimal float value: sign,
integer part, `'.'`, and the fraction digits without trailing zeros
(`"0"` when the value is integral), e.g. `str(30.0) = "30.0"`. -/
def decStrData (d : Dec) : List Char :=
  let a := d.num.natAbs
  let ip := a / 10 ^ d.exp
  let fp := a % 10 ^ d.exp
  let frac := stripTrailingZeros (fracDigits fp d.exp)
  (if d.num < 0 then ['-'] else []) ++ Nat.toDigits 10 ip ++
    '.' :: (if frac = [] then ['0'] else frac)

/-- Model of CPython `str()` of a float value. -/
def decStr (d : Dec) : String := ⟨decStrData d⟩

/-- A Python number as stored in `ChatSettings.timeout`: the initial
timeout is an `int` (`int(os.environ.get("OPENAI_API_TIMEOUT", "20"))`),
and `set_timeout` stores a `float`. -/
inductive PyNum where
  | int (n : Int)
  | float (d : Dec)
deriving DecidableEq, Repr

/-- Model of CPython `str()` on a `PyNum`. -/
def pyStr : PyNum → String
  | .int n => intStr n
  | .float d => decStr d

/-- One conversational entry of `CHATGPT.messages`: a dict
`{"role": …, "content": …}`. -/
structure Turn where
  role : String
  content : String
deriving DecidableEq, Repr

/-- State of the `CHATGPT` class: transcript and token counters
(`api_key`, endpoint and headers are static request plumbing). -/
structure CHATGPT where
  api_key : String
  messages : List Turn
  total_tokens : Nat
  current_tokens : Nat
deriving DecidableEq, Repr

/-- `CHATGPT.__init__`: the transcript is seeded with the system turn and
both counters start at 0. -/
def CHATGPT.init (api_key : String) : CHATGPT :=
  { api_key := api_key
    messages := [⟨"system", "You are a helpful assistant."⟩]
    total_tokens := 0
    current_tokens := 0 }

/-- State of the `ChatSettings` class. -/
structure ChatSettings where
  raw_mode : Bool
  multi_line_mode : Bool
  timeout : PyNum
deriving DecidableEq, Repr

/-- `ChatSettings.__init__(timeout)`, called with the integer timeout from
the environment. -/
def ChatSettings.init (timeout : Int) : ChatSettings :=
  { raw_mode := false, multi_line_mode := false, timeout := .int timeout }

/-- An observable side effect: console output, log records, and file
writes performed by `save_chat_history` (`json.dump` of the message
list). -/
inductive Effect where
  | print (s : String)
  | printMarkdown (s : String)
  | logInfo (s : String)
  | logDebug (s : String)
  | logError (s : String)
  | logException (s : String)
  | saveFile (filename : String) (contents : List Turn)
deriving DecidableEq, Repr

/-- `CHATGPT.save_chat_history(filename)`: dump `self.messages` to the
file, then print a confirmation. -/
def save_chat_history (c : CHATGPT) (filename : String) : List Effect :=
  [.saveFile filename c.messages,
   .print ("[dim]Chat history saved to: [bright_magenta]" ++ filename)]

/-- Outcome of the `requests.post` call in `send`, one constructor per
branch of its try/except: a well-formed 2xx response carrying the
reported usage and reply message, an HTTP 400 with the server's
`error.message`, a `KeyboardInterrupt`, a `ReadTimeout`, another
`RequestException` (connection errors and non-400 error statuses via
`raise_for_status`), and any other exception. -/
inductive NetOutcome where
  | success (usage : Nat) (reply : Turn)
  | http400 (error_msg : String)
  | keyboardInterrupt
  | readTimeout
  | requestException (msg : String)
  | otherException (msg : String)
deriving DecidableEq, Repr

/-- How `send` gives control back to the caller: a Python `return`
(carrying the reply dict or `None`), a re-raised `KeyboardInterrupt`, or
the `raise EOFError` of the fatal branch. -/
inductive SendExit where
  | returned (reply : Option Turn)
  | raisedKeyboardInterrupt
  | raisedEOFError
deriving DecidableEq, Repr

/-- Result of a `send` call: exit mode, new object state, side effects. -/
structure SendRes where
  exit : SendExit
  chat : CHATGPT
  effects : List Effect
deriving DecidableEq, Repr

/-- The timestamped backup location used by the fatal branch of `send`:
`f'{sys.path[0]}/chat_history_backup_{datetime.now()…}.json'`. -/
def backup_filename (sysPath now : String) : String :=
  sysPath ++ "/chat_history_backup_" ++ now ++ ".json"

/-- `CHATGPT.send(message, timeout)`: append a tentative user turn, issue
the request, and dispatch on the outcome exactly as the source's
branches do.  Every failure branch first pops the tentative user turn
(`self.messages.pop()`); the fatal branch additionally saves a backup of
the (already reverted) transcript and raises `EOFError`; the success
branch sets `current_tokens` to the reported usage, adds it to
`total_tokens`, and appends the reply. -/
def CHATGPT.send (c : CHATGPT) (message : String) (timeout : PyNum)
    (sysPath now : String) (net : NetOutcome) : SendRes :=
  let c1 : CHATGPT := { c with messages := c.messages ++ [⟨"user", message⟩] }
  let popped : CHATGPT := { c1 with messages := c1.messages.dropLast }
  match net with
  | .http400 error_msg =>
    { exit := .returned none, chat := popped
      effects := [.print ("[red]Error: " ++ error_msg), .logError error_msg] }
  | .keyboardInterrupt =>
    { exit := .raisedKeyboardInterrupt, chat := popped
      effects := [.print "[bold cyan]Aborted."] }
  | .readTimeout =>
    { exit := .returned none, chat := popped
      effects := [.print ("[red]Error: API read timed out (" ++ pyStr timeout ++
        "s). You can retry or increase the timeout.")] }
  | .requestException msg =>
    { exit := .returned none, chat := popped
      effects := [.print ("[red]Error: " ++ msg), .logException msg] }
  | .otherException msg =>
    { exit := .raisedEOFError, chat := popped
      effects := [.print ("[red]Error: " ++ msg ++ ". Check log for more information"),
        .logException msg] ++
        save_chat_history popped (backup_filename sysPath now) }
  | .success usage reply =>
    { exit := .returned (some reply)
      chat := { c1 with
        messages := c1.messages ++ [reply]
        current_tokens := usage
        total_tokens := c1.total_tokens + usage }
      effects := [.logDebug "Response"] }

/-- Exit mode of a Python call that either returns normally, raises
`EOFError` (`/exit`), or raises an uncaught `IndexError` (subscript of an
empty list). -/
inductive PyExit where
  | normal
  | raisedEOFError
  | raisedIndexError
deriving DecidableEq, Repr

/-- Result of `modify_system_prompt`: the Python return value (always
`None` — the function has no return statement), exit mode, state, and
output. -/
structure ModifyRes where
  ret : Option String
  exit : PyExit
  chat : CHATGPT
  effects : List Effect
deriving DecidableEq, Repr

/-- `CHATGPT.modify_system_prompt(new_content)`: if `messages[0]` has role
`system`, overwrite its content in place and print a notice naming the
old content (plus a caveat when the chat already has further turns);
otherwise print that no system prompt was found.  Subscripting
`messages[0]` on an empty list raises `IndexError`. -/
def CHATGPT.modify_system_prompt (c : CHATGPT) (new_content : String) : ModifyRes :=
  match c.messages with
  | [] => { ret := none, exit := .raisedIndexError, chat := c, effects := [] }
  | m0 :: rest =>
    if m0.role = "system" then
      let old_content := m0.content
      { ret := none, exit := .normal
        chat := { c with messages := { m0 with content := new_content } :: rest }
        effects := [.print ("[dim]System prompt has been modified from '" ++
            old_content ++ "' to '" ++ new_content ++ "'.")] ++
          (if (m0 :: rest).length > 1 then
            [.print "[dim]Note this is not a new chat, modifications to the system prompt have limited impact on answers."]
          else []) }
    else
      { ret := none, exit := .normal, chat := c
        effects := [.print "[dim]No system prompt found in messages."] }

/-- Result of a `ChatSettings` method: new settings plus output. -/
structure SettingsRes where
  settings : ChatSettings
  effects : List Effect
deriving DecidableEq, Repr

/-- `ChatSettings.set_timeout(timeout)`: `float(timeout)`; on `ValueError`
report and leave the timeout unchanged, otherwise store the float and
confirm (echoing the input string). -/
def ChatSettings.set_timeout (st : ChatSettings) (timeout : String) : SettingsRes :=
  match pyFloat timeout with
  | none =>
    { settings := st, effects := [.print "[red]Input must be a number"] }
  | some d =>
    { settings := { st with timeout := .float d }
      effects := [.print ("[dim]API timeout set to [green]" ++ timeout ++ "s[/].")] }

/-- `ChatSettings.toggle_raw_mode`. -/
def ChatSettings.toggle_raw_mode (st : ChatSettings) : SettingsRes :=
  let st2 := { st with raw_mode := !st.raw_mode }
  { settings := st2
    effects := [.print ("[dim]Raw mode " ++
      (if st2.raw_mode then "enabled" else "disabled") ++
      ", use `/last` to display the last answer.")] }

/-- `ChatSettings.toggle_multi_line_mode`. -/
def ChatSettings.toggle_multi_line_mode (st : ChatSettings) : SettingsRes :=
  let st2 := { st with multi_line_mode := !st.multi_line_mode }
  { settings := st2
    effects := if st2.multi_line_mode then
        [.print "[dim]Multi-line mode enabled, press [[bright_magenta]Esc[/]] + [[bright_magenta]ENTER[/]] to submit."]
      else [.print "[dim]Multi-line mode disabled."] }

/-- `print_message(message, settings)`: user turns echo as `> content`,
assistant turns print a `ChatGPT: ` prefix and then the content, raw or
rendered as markdown depending on `raw_mode`; other roles print
nothing. -/
def print_message (message : Turn) (settings : ChatSettings) : List Effect :=
  if message.role = "user" then [.print ("> " ++ message.content)]
  else if message.role = "assistant" then
    [.print "ChatGPT: "] ++
      (if settings.raw_mode then [.print message.content]
       else [.printMarkdown message.content])
  else []

/-- The `/undo` branch of `handle_command`: with more than two messages,
pop the answer and the question and print the (first-line-truncated)
question; otherwise report nothing to undo. -/
def undo_command (c : CHATGPT) : CHATGPT × List Effect :=
  if c.messages.length > 2 then
    let m1 := c.messages.dropLast
    let question := m1.getLastD ⟨"", ""⟩
    let m2 := m1.dropLast
    let tq0 : List Char := (pySplitChar '\n' question.content.data).headD []
    let tq : List Char :=
      if question.content.data.length > tq0.length then tq0 ++ ['.', '.', '.'] else tq0
    let tqs : String := ⟨tq⟩
    ({ c with messages := m2 },
     [.print ("[dim]Last question: '" ++ tqs ++ "' and it's answer has been removed.")])
  else (c, [.print "[dim]Nothing to undo."])

/-- The help table printed for `/help` and unrecognized commands. -/
def help_text : String :=
  "[bold]Available commands:[/]\n    /raw                     - Toggle raw mode (showing raw text of ChatGPT's reply)\n    /multi                   - Toggle multi-line mode (allow multi-line input)\n    /tokens                  - Show total tokens and current tokens used\n    /last                    - Display last ChatGPT's reply\n    /save \\[filename_or_path] - Save the chat history to a file\n    /system \\[new_prompt]     - Modify the system prompt\n    /timeout \\[new_timeout]   - Modify the api timeout\n    /undo                    - Undo the last question and remove its answer\n    /help                    - Show this help message\n    /exit                    - Exit the application"

/-- Result of `handle_command`. -/
structure CmdRes where
  exit : PyExit
  chat : CHATGPT
  settings : ChatSettings
  effects : List Effect
deriving DecidableEq, Repr

/-- `handle_command(command, chatGPT, settings)`: the cascade of
string comparisons of the source, in source order.  `promptReply` is the
text the interactive `prompt(...)` call returns when a command is given
without arguments (the sub-prompt is a synchronous suspension point; its
pre-filled default only seeds the editable input). -/
def handle_command (command : String) (chatGPT : CHATGPT)
    (settings : ChatSettings) (promptReply : String) : CmdRes :=
  if command = "/raw" then
    let r := settings.toggle_raw_mode
    { exit := .normal, chat := chatGPT, settings := r.settings, effects := r.effects }
  else if command = "/multi" then
    let r := settings.toggle_multi_line_mode
    { exit := .normal, chat := chatGPT, settings := r.settings, effects := r.effects }
  else if command = "/tokens" then
    { exit := .normal, chat := chatGPT, settings := settings
      effects := [.print ("[dim]Total tokens: " ++ natStr chatGPT.total_tokens),
        .print ("[dim]Current tokens: " ++ natStr chatGPT.current_tokens ++ "[/]/[black]4097")] }
  else if command = "/last" then
    match chatGPT.messages.getLast? with
    | none =>
      { exit := .raisedIndexError, chat := chatGPT, settings := settings, effects := [] }
    | some reply =>
      { exit := .normal, chat := chatGPT, settings := settings
        effects := print_message reply settings }
  else if pyStartsWith command "/save" then
    let args := pySplitWs command
    let filename := if args.length > 1 then args.getD 1 "" else promptReply
    { exit := .normal, chat := chatGPT, settings := settings
      effects := save_chat_history chatGPT filename }
  else if pyStartsWith command "/system" then
    match chatGPT.messages with
    | [] =>
      { exit := .raisedIndexError, chat := chatGPT, settings := settings, effects := [] }
    | m0 :: _ =>
      let args := pySplitWs command
      let new_content := if args.length > 1 then pyJoin " " (args.drop 1) else promptReply
      if new_content ≠ m0.content then
        let r := chatGPT.modify_system_prompt new_content
        { exit := r.exit, chat := r.chat, settings := settings, effects := r.effects }
      else
        { exit := .normal, chat := chatGPT, settings := settings
          effects := [.print "[dim]No cahnge."] }
  else if pyStartsWith command "/timeout" then
    let args := pySplitWs command
    let new_timeout := if args.length > 1 then args.getD 1 "" else promptReply
    if new_timeout ≠ pyStr settings.timeout then
      let r := settings.set_timeout new_timeout
      { exit := .normal, chat := chatGPT, settings := r.settings, effects := r.effects }
    else
      { exit := .normal, chat := chatGPT, settings := settings
        effects := [.print "[dim]No cahnge."] }
  else if command = "/undo" then
    let r := undo_command chatGPT
    { exit := .normal, chat := r.fst, settings := settings, effects := r.snd }
  else if command = "/exit" then
    { exit := .raisedEOFError, chat := chatGPT, settings := settings, effects := [] }
  else
    { exit := .normal, chat := chatGPT, settings := settings
      effects := [.print help_text] }

/-- A JSON document, the parse tree of an on-disk file. -/
inductive JValue where
  | str (s : String)
  | arr (xs : List JValue)
  | obj (fields : List (String × JValue))

/-- The JSON object a message dict serializes to: `{"role": …, "content": …}`
(`json.dump` preserves the insertion order of the two keys). -/
def turnToJson (t : Turn) : JValue :=
  .obj [("role", .str t.role), ("content", .str t.content)]

/-- The JSON array `json.dump(self.messages, …)` writes. -/
def messagesToJson (ms : List Turn) : JValue := .arr (ms.map turnToJson)

/-- Content of an on-disk file: a valid JSON document (abstracted by its
parse tree — `json.load` inverts `json.dump` on the serialized text), or
text that is not valid JSON. -/
inductive FileData where
  | jsonFile (doc : JValue)
  | invalidFile

/-- The file system: newest-first association list from path to content. -/
abbrev FS := List (String × FileData)

/-- The file write performed by `save_chat_history(filename)`:
`json.dump(self.messages, f, …)`. -/
def writeJsonFile (fs : FS) (filename : String) (ms : List Turn) : FS :=
  (filename, .jsonFile (messagesToJson ms)) :: fs

/-- `load_chat_history(file_path)`: return the parsed JSON document, or
report (and return `None`) on a missing file or a JSON decode error. -/
def load_chat_history (fs : FS) (file_path : String) : Option JValue × List Effect :=
  match fs.lookup file_path with
  | none => (none, [.print ("[bright_red]File not found: " ++ file_path)])
  | some .invalidFile =>
    (none, [.print ("[bright_red]Invalid JSON format in file: " ++ file_path)])
  | some (.jsonFile doc) => (some doc, [])

/-- Read a message dict back off its JSON object. -/
def jsonToTurn : JValue → Option Turn
  | .obj [("role", .str r), ("content", .str c)] => some ⟨r, c⟩
  | _ => none

/-- Read a list of message dicts off a list of JSON objects, failing if
any entry is not a `{"role": …, "content": …}` object. -/
def jsonObjsToTurns : List JValue → Option (List Turn)
  | [] => some []
  | x :: xs =>
    match jsonToTurn x, jsonObjsToTurns xs with
    | some t, some ts => some (t :: ts)
    | _, _ => none

/-- Read the ordered (role, content) sequence off a loaded JSON document. -/
def jsonToTurns : JValue → Option (List Turn)
  | .arr xs => jsonObjsToTurns xs
  | _ => none

/-- The farewell words of the main loop:
`['再见', 'bye', 'goodbye', '结束', 'end', '退出', 'exit', 'quit']`. -/
def farewells : List String :=
  ["再见", "bye", "goodbye", "结束", "end", "退出", "exit", "quit"]

/-- What the session loop does next after handling one input line. -/
inductive LoopSignal where
  | reading
  | terminated
  | crashed
deriving DecidableEq, Repr

/-- Result of one iteration of the main loop. -/
structure StepRes where
  signal : LoopSignal
  chat : CHATGPT
  settings : ChatSettings
  effects : List Effect
deriving DecidableEq, Repr

/-- The command path of the main loop: run `handle_command` inside the
loop's try; `EOFError` (`/exit`) is caught and breaks the loop with
`Exiting...`, an uncaught `IndexError` crashes the process. -/
def command_step (command : String) (chatGPT : CHATGPT)
    (settings : ChatSettings) (promptReply : String) : StepRes :=
  let r := handle_command command chatGPT settings promptReply
  match r.exit with
  | .normal =>
    { signal := .reading, chat := r.chat, settings := r.settings, effects := r.effects }
  | .raisedEOFError =>
    { signal := .terminated, chat := r.chat, settings := r.settings
      effects := r.effects ++ [.print "Exiting..."] }
  | .raisedIndexError =>
    { signal := .crashed, chat := r.chat, settings := r.settings, effects := r.effects }

/-- One iteration of the `while True` loop of `main` on input line
`message`: a line starting with `/` is stripped, lower-cased and routed
to `handle_command`; an empty message is ignored; otherwise the message
goes to `send` and, when `send` returns (reply or `None`), the loop
breaks if `message.lower()` is a farewell word.  A `KeyboardInterrupt`
propagating from `send` is caught and the loop continues; an `EOFError`
breaks the loop with `Exiting...`. -/
def mainStep (message : String) (chatGPT : CHATGPT) (settings : ChatSettings)
    (net : NetOutcome) (promptReply sysPath now : String) : StepRes :=
  if pyStartsWith message "/" then
    command_step (pyLower (pyStrip message)) chatGPT settings promptReply
  else if message = "" then
    { signal := .reading, chat := chatGPT, settings := settings, effects := [] }
  else
    let s := chatGPT.send message settings.timeout sysPath now net
    let logEff : List Effect := [.logInfo ("> " ++ message)]
    match s.exit with
    | .returned reply =>
      let renderEff : List Effect :=
        match reply with
        | some r => [.logInfo ("ChatGPT: " ++ r.content)] ++ print_message r settings
        | none => []
      if farewells.contains (pyLower message) then
        { signal := .terminated, chat := s.chat, settings := settings
          effects := logEff ++ s.effects ++ renderEff }
      else
        { signal := .reading, chat := s.chat, settings := settings
          effects := logEff ++ s.effects ++ renderEff }
    | .raisedKeyboardInterrupt =>
      { signal := .reading, chat := s.chat, settings := settings
        effects := logEff ++ s.effects }
    | .raisedEOFError =>
      { signal := .terminated, chat := s.chat, settings := settings
        effects := logEff ++ s.effects ++ [.print "Exiting..."] }

/-- An operation of the session core that touches the transcript: a
`send` with any outcome, the `/undo` command, or a system-prompt
modification. -/
inductive Op where
  | sendMsg (message : String) (timeout : PyNum) (sysPath now : String) (net : NetOutcome)
  | undo
  | modifySystem (new_content : String)

/-- Transcript-state transition of one operation. -/
def opApply (c : CHATGPT) : Op → CHATGPT
  | .sendMsg m t sp now net => (c.send m t sp now net).chat
  | .undo => (undo_command c).fst
  | .modifySystem nc => (c.modify_system_prompt nc).chat

/-- Classifies the three recoverable failure branches of `send`: HTTP 400
server validation, read timeout, and other transport-level
`RequestException`s. -/
def NetOutcome.isRecoverableFailure : NetOutcome → Bool
  | .http400 _ => true
  | .readTimeout => true
  | .requestException _ => true
  | _ => false

/-- Classifies the fatal (unclassified-exception) branch of `send`. -/
def NetOutcome.isFatal : NetOutcome → Bool
  | .otherException _ => true
  | _ => false

/-- Outcomes on which `send` returns to its caller (with a reply or
`None`) instead of raising. -/
def NetOutcome.isReturning : NetOutcome → Bool
  | .success _ _ => true
  | .http400 _ => true
  | .readTimeout => true
  | .requestException _ => true
  | .keyboardInterrupt => false
  | .otherException _ => false

/-- One successful exchange, as consumed by `runSends`. -/
structure Exchange where
  message : String
  timeout : PyNum
  sysPath : String
  now : String
  usage : Nat
  reply : Turn

/-- Run a sequence of successful `send` exchanges. -/
def runSends (c : CHATGPT) (xs : List Exchange) : CHATGPT :=
  xs.foldl
    (fun a e => (a.send e.message e.timeout e.sysPath e.now (.success e.usage e.reply)).chat)
    c

theorem dropLast_append_one {α : Type} (l : List α) (a : α) :
    (l ++ [a]).dropLast = l := by
  simp

/-- C1: for the three recoverable failure classes of `send` (HTTP 400
validation failure, read timeout, other transport failure) the call
returns `None` and the whole `CHATGPT` state after the call — transcript
length, roles, contents and both token counters — equals the state
before the call, so no dangling user turn remains. -/
theorem send_recoverable_failure_reverts (c : CHATGPT) (message : String)
    (timeout : PyNum) (sysPath now : String) (net : NetOutcome)
    (h : net.isRecoverableFailure = true) :
    (c.send message timeout sysPath now net).exit = .returned none ∧
      (c.send message timeout sysPath now net).chat = c := by
  cases net <;>
    simp_all [NetOutcome.isRecoverableFailure, CHATGPT.send, dropLast_append_one]

/-- Witness for C1: a read timeout at a concrete state reverts it. -/
theorem send_recoverable_failure_reverts_witness :
    NetOutcome.readTimeout.isRecoverableFailure = true ∧
      (((CHATGPT.init "k").send "hi" (.int 20) "." "t" .readTimeout).exit =
          .returned none ∧
        ((CHATGPT.init "k").send "hi" (.int 20) "." "t" .readTimeout).chat =
          CHATGPT.init "k") :=
  ⟨by decide,
   send_recoverable_failure_reverts (CHATGPT.init "k") "hi" (.int 20) "." "t"
     .readTimeout (by decide)⟩

/-- Classifies the success branch of `send`. -/
def NetOutcome.isSuccess : NetOutcome → Bool
  | .success _ _ => true
  | _ => false

theorem runSends_cons (c : CHATGPT) (e : Exchange) (xs : List Exchange) :
    runSends c (e :: xs) =
      runSends ((c.send e.message e.timeout e.sysPath e.now (.success e.usage e.reply)).chat)
        xs := rfl

theorem runSends_total (c : CHATGPT) (xs : List Exchange) :
    (runSends c xs).total_tokens = c.total_tokens + (xs.map Exchange.usage).sum := by
  induction xs generalizing c with
  | nil => simp [runSends]
  | cons e xs ih =>
    rw [runSends_cons, ih]
    simp [CHATGPT.send]
    omega

theorem getLast?_cons_getD {α : Type} (a x : α) (l : List α) :
    ((a :: l).getLast?).getD x = (l.getLast?).getD a := by
  cases l with
  | nil => rfl
  | cons b l =>
    rw [List.getLast?_cons_cons]
    cases h : (b :: l).getLast? with
    | none => simp [List.getLast?_eq_none_iff] at h
    | some y => simp

theorem runSends_current (c : CHATGPT) (xs : List Exchange) :
    (runSends c xs).current_tokens =
      ((xs.map Exchange.usage).getLast?).getD c.current_tokens := by
  induction xs generalizing c with
  | nil => simp [runSends]
  | cons e xs ih =>
    rw [runSends_cons, ih, List.map_cons, getLast?_cons_getD]
    rfl

/-- C2: starting from the initial state, after any sequence of successful
exchanges `total_tokens` is exactly the sum of the usages reported in
each response and `current_tokens` is exactly the usage reported in the
last response (instantiating the sequence at each prefix gives the
property after each success); and on every non-success outcome `send`
leaves both counters unchanged, so the counters are updated only on
success. -/
theorem token_accounting (key : String) (xs : List Exchange) (c : CHATGPT)
    (message : String) (timeout : PyNum) (sysPath now : String) (net : NetOutcome) :
    ((runSends (CHATGPT.init key) xs).total_tokens = (xs.map Exchange.usage).sum) ∧
    ((runSends (CHATGPT.init key) xs).current_tokens =
       ((xs.map Exchange.usage).getLast?).getD 0) ∧
    (net.isSuccess = false →
       ((c.send message timeout sysPath now net).chat.total_tokens = c.total_tokens ∧
        (c.send message timeout sysPath now net).chat.current_tokens = c.current_tokens)) := by
  refine ⟨?_, ?_, ?_⟩
  · rw [runSends_total]; simp [CHATGPT.init]
  · rw [runSends_current]; rfl
  · intro h
    cases net <;> simp_all [NetOutcome.isSuccess, CHATGPT.send]

/-- Witness for C2: two concrete successful exchanges followed by a
failed one. -/
theorem token_accounting_witness :
    ((runSends (CHATGPT.init "k")
        [⟨"2+2?", .int 20, ".", "t", 15, ⟨"assistant", "4"⟩⟩,
         ⟨"3+3?", .int 20, ".", "t", 21, ⟨"assistant", "6"⟩⟩]).total_tokens = 36) ∧
    ((runSends (CHATGPT.init "k")
        [⟨"2+2?", .int 20, ".", "t", 15, ⟨"assistant", "4"⟩⟩,
         ⟨"3+3?", .int 20, ".", "t", 21, ⟨"assistant", "6"⟩⟩]).current_tokens = 21) ∧
    (NetOutcome.readTimeout.isSuccess = false ∧
      (((CHATGPT.init "k").send "hi" (.int 20) "." "t" .readTimeout).chat.total_tokens = 0 ∧
       ((CHATGPT.init "k").send "hi" (.int 20) "." "t" .readTimeout).chat.current_tokens = 0)) := by
  refine ⟨?_, ?_, by decide, ?_⟩
  · have h := (token_accounting "k"
      [⟨"2+2?", .int 20, ".", "t", 15, ⟨"assistant", "4"⟩⟩,
       ⟨"3+3?", .int 20, ".", "t", 21, ⟨"assistant", "6"⟩⟩] (CHATGPT.init "k")
      "hi" (.int 20) "." "t" .readTimeout).1
    simpa using h
  · have h := (token_accounting "k"
      [⟨"2+2?", .int 20, ".", "t", 15, ⟨"assistant", "4"⟩⟩,
       ⟨"3+3?", .int 20, ".", "t", 21, ⟨"assistant", "6"⟩⟩] (CHATGPT.init "k")
      "hi" (.int 20) "." "t" .readTimeout).1
    decide
  · exact ((token_accounting "k" [] (CHATGPT.init "k")
      "hi" (.int 20) "." "t" .readTimeout).2.2 (by decide))

/-- Counterexample to C3 as stated: the claim quantifies over every
transcript state, but from the empty transcript a successful `send`
leaves two turns and `/undo` then refuses (it requires more than two
turns), so the transcript is not restored to its pre-send state. -/
theorem send_undo_counterexample :
    (handle_command "/undo"
        (({ api_key := "k", messages := [], total_tokens := 0, current_tokens := 0 :
              CHATGPT }).send "hello" (.int 20) "." "t"
            (.success 15 ⟨"assistant", "4"⟩)).chat
        (ChatSettings.init 20) "p").chat.messages ≠
      ({ api_key := "k", messages := [], total_tokens := 0, current_tokens := 0 :
          CHATGPT }).messages := by
  decide

/-- C3 (amended): for every transcript state with at least one turn, a
successful `send` followed by the `/undo` command restores the
transcript exactly to its pre-send contents, while the token counters
keep their post-send values (`total_tokens` grew by the reported usage,
`current_tokens` is that usage) — undo does not roll counters back. -/
theorem send_undo_restores (c c1 : CHATGPT) (message : String) (timeout : PyNum)
    (sysPath now : String) (usage : Nat) (reply : Turn)
    (st : ChatSettings) (promptReply : String)
    (h : c.messages ≠ [])
    (hc1 : c1 = (c.send message timeout sysPath now (.success usage reply)).chat) :
    (handle_command "/undo" c1 st promptReply).chat.messages = c.messages ∧
    (handle_command "/undo" c1 st promptReply).chat.total_tokens =
      c.total_tokens + usage ∧
    (handle_command "/undo" c1 st promptReply).chat.current_tokens = usage := by
  subst hc1
  set c1 := (c.send message timeout sysPath now (.success usage reply)).chat with hc1
  have hchat : (handle_command "/undo" c1 st promptReply).chat = (undo_command c1).fst := rfl
  have hmsg : c1.messages = (c.messages ++ [⟨"user", message⟩]) ++ [reply] := rfl
  have hpos : 0 < c.messages.length := List.length_pos.mpr h
  have hlen : c1.messages.length > 2 := by
    rw [hmsg]
    simp [List.length_append]
    exact hpos
  have hu : (undo_command c1).fst = { c1 with messages := c1.messages.dropLast.dropLast } := by
    unfold undo_command
    rw [if_pos hlen]
  have hmsgs : c1.messages.dropLast.dropLast = c.messages := by
    rw [hmsg, dropLast_append_one, dropLast_append_one]
  refine ⟨?_, ?_, ?_⟩
  · rw [hchat, hu]; exact hmsgs
  · rw [hchat, hu]; rfl
  · rw [hchat, hu]; rfl

/-- Witness for C3 (amended): the concrete scenario of the spec —
`send "2+2?"` succeeding with usage 15 from the seeded transcript, then
`/undo`. -/
theorem send_undo_restores_witness :
    (CHATGPT.init "k").messages ≠ [] ∧
    ((handle_command "/undo"
        ((CHATGPT.init "k").send "2+2?" (.int 20) "." "t"
          (.success 15 ⟨"assistant", "4"⟩)).chat
        (ChatSettings.init 20) "p").chat.messages = (CHATGPT.init "k").messages ∧
     (handle_command "/undo"
        ((CHATGPT.init "k").send "2+2?" (.int 20) "." "t"
          (.success 15 ⟨"assistant", "4"⟩)).chat
        (ChatSettings.init 20) "p").chat.total_tokens =
        (CHATGPT.init "k").total_tokens + 15 ∧
     (handle_command "/undo"
        ((CHATGPT.init "k").send "2+2?" (.int 20) "." "t"
          (.success 15 ⟨"assistant", "4"⟩)).chat
        (ChatSettings.init 20) "p").chat.current_tokens = 15) :=
  ⟨by decide,
   send_undo_restores (CHATGPT.init "k") _ "2+2?" (.int 20) "." "t" 15
     ⟨"assistant", "4"⟩ (ChatSettings.init 20) "p" (by decide) rfl⟩

/-- C4: on an unclassified exception `send` pops the tentative user turn
(the transcript reverts to its pre-call contents), reports the error,
writes an emergency snapshot of the (reverted) transcript to the
timestamped backup location, and raises `EOFError` (session
termination); and `raise EOFError` is the only exit mode of `send` that
terminates the session — every other failure outcome either returns
`None` or re-raises `KeyboardInterrupt`, which the main loop treats as
abort-and-continue. -/
theorem send_fatal_backs_up_and_terminates (c : CHATGPT) (message : String)
    (timeout : PyNum) (sysPath now e : String) (net : NetOutcome) :
    ((c.send message timeout sysPath now (.otherException e)).exit = .raisedEOFError) ∧
    ((c.send message timeout sysPath now (.otherException e)).chat.messages = c.messages) ∧
    (Effect.saveFile (backup_filename sysPath now)
        (c.send message timeout sysPath now (.otherException e)).chat.messages ∈
      (c.send message timeout sysPath now (.otherException e)).effects) ∧
    (Effect.print ("[red]Error: " ++ e ++ ". Check log for more information") ∈
      (c.send message timeout sysPath now (.otherException e)).effects) ∧
    ((c.send message timeout sysPath now net).exit = .raisedEOFError ↔
      net.isFatal = true) := by
  refine ⟨rfl, ?_, ?_, ?_, ?_⟩
  · exact dropLast_append_one _ _
  · simp [CHATGPT.send, save_chat_history]
  · simp [CHATGPT.send, save_chat_history]
  · cases net <;> simp [CHATGPT.send, NetOutcome.isFatal]

/-- Witness for C4 at a concrete state and exception, with the
non-fatal outcome instantiated to a `KeyboardInterrupt`. -/
theorem send_fatal_backs_up_and_terminates_witness :
    (((CHATGPT.init "k").send "hi" (.int 20) "/sp" "2023" (.otherException "boom")).exit =
        .raisedEOFError) ∧
    (((CHATGPT.init "k").send "hi" (.int 20) "/sp" "2023" (.otherException "boom")).chat.messages =
        (CHATGPT.init "k").messages) ∧
    (Effect.saveFile (backup_filename "/sp" "2023")
        ((CHATGPT.init "k").send "hi" (.int 20) "/sp" "2023" (.otherException "boom")).chat.messages ∈
      ((CHATGPT.init "k").send "hi" (.int 20) "/sp" "2023" (.otherException "boom")).effects) ∧
    (Effect.print ("[red]Error: " ++ "boom" ++ ". Check log for more information") ∈
      ((CHATGPT.init "k").send "hi" (.int 20) "/sp" "2023" (.otherException "boom")).effects) ∧
    (((CHATGPT.init "k").send "hi" (.int 20) "/sp" "2023" .keyboardInterrupt).exit =
        .raisedEOFError ↔ NetOutcome.keyboardInterrupt.isFatal = true) :=
  send_fatal_backs_up_and_terminates (CHATGPT.init "k") "hi" (.int 20) "/sp" "2023"
    "boom" .keyboardInterrupt

/-- Counterexample to C5 as stated: `modify_system_prompt` has no return
statement, so it returns `None` and never the old content (shown at the
seeded transcript, whose old system content is
`"You are a helpful assistant."`); and on an empty transcript the
`messages[0]` subscript raises an uncaught `IndexError` instead of
reporting a missing system prompt and leaving the transcript
unmodified. -/
theorem modify_system_prompt_counterexample :
    ((CHATGPT.init "k").modify_system_prompt "You are a pirate.").ret ≠
        some "You are a helpful assistant." ∧
    (({ api_key := "k", messages := [], total_tokens := 0, current_tokens := 0 :
          CHATGPT }).modify_system_prompt "x").exit = .raisedIndexError := by
  decide

/-- C5 (amended): on every non-empty transcript,
`modify_system_prompt(newContent)` returns normally with return value
`None`; if `Turn[0].role == system` it overwrites that turn's content in
place (counters and the rest of the transcript untouched) and reports
the old content in its printed notice; otherwise it prints the
no-system-prompt notice and leaves the state unmodified.  (On an empty
transcript the `messages[0]` subscript raises `IndexError`.) -/
theorem modify_system_prompt_spec (key : String) (m0 : Turn) (rest : List Turn)
    (tt ct : Nat) (new_content : String) :
    ((CHATGPT.mk key (m0 :: rest) tt ct).modify_system_prompt new_content).ret = none ∧
    ((CHATGPT.mk key (m0 :: rest) tt ct).modify_system_prompt new_content).exit = .normal ∧
    (m0.role = "system" →
      ((CHATGPT.mk key (m0 :: rest) tt ct).modify_system_prompt new_content).chat =
          CHATGPT.mk key ({ m0 with content := new_content } :: rest) tt ct ∧
        Effect.print ("[dim]System prompt has been modified from '" ++ m0.content ++
            "' to '" ++ new_content ++ "'.") ∈
          ((CHATGPT.mk key (m0 :: rest) tt ct).modify_system_prompt new_content).effects) ∧
    (m0.role ≠ "system" →
      ((CHATGPT.mk key (m0 :: rest) tt ct).modify_system_prompt new_content).chat =
          CHATGPT.mk key (m0 :: rest) tt ct ∧
        Effect.print "[dim]No system prompt found in messages." ∈
          ((CHATGPT.mk key (m0 :: rest) tt ct).modify_system_prompt new_content).effects) := by
  by_cases h : m0.role = "system" <;>
    simp [CHATGPT.modify_system_prompt, h]

/-- Witness for C5 (amended): replacing the prompt of a one-turn system
transcript mutates index 0 in place and returns `None`. -/
theorem modify_system_prompt_spec_witness :
    ((CHATGPT.mk "k" [⟨"system", "s"⟩] 0 0).modify_system_prompt "new").ret = none ∧
    ((⟨"system", "s"⟩ : Turn).role = "system" ∧
      ((CHATGPT.mk "k" [⟨"system", "s"⟩] 0 0).modify_system_prompt "new").chat =
        CHATGPT.mk "k" [⟨"system", "new"⟩] 0 0) := by
  refine ⟨(modify_system_prompt_spec "k" ⟨"system", "s"⟩ [] 0 0 "new").1, rfl, ?_⟩
  exact ((modify_system_prompt_spec "k" ⟨"system", "s"⟩ [] 0 0 "new").2.2.1 rfl).1

theorem jsonToTurn_turnToJson (t : Turn) : jsonToTurn (turnToJson t) = some t := rfl

theorem jsonToTurns_messagesToJson (ms : List Turn) :
    jsonToTurns (messagesToJson ms) = some ms := by
  induction ms with
  | nil => rfl
  | cons t ts ih =>
    have ih2 : jsonObjsToTurns (ts.map turnToJson) = some ts := by
      simpa [messagesToJson, jsonToTurns] using ih
    simp [messagesToJson, jsonToTurns, jsonObjsToTurns, jsonToTurn_turnToJson, ih2]

/-- Counterexample to C6 as stated: a transcript whose system turn is not
at index 0 (reachable via `--load` of such a file) round-trips to the
identical sequence — `load_chat_history` performs no reordering — so the
system turn present in the saved transcript is at index 1, not index 0,
of the loaded one. -/
theorem save_load_counterexample :
    (((load_chat_history
          (writeJsonFile [] "f.json" [⟨"user", "hi"⟩, ⟨"system", "s"⟩])
          "f.json").fst.bind jsonToTurns) =
        some [⟨"user", "hi"⟩, ⟨"system", "s"⟩]) ∧
    (∃ t ∈ ([⟨"user", "hi"⟩, ⟨"system", "s"⟩] : List Turn), t.role = "system") ∧
    ([(⟨"user", "hi"⟩ : Turn), ⟨"system", "s"⟩].head? = some ⟨"user", "hi"⟩ ∧
      (⟨"user", "hi"⟩ : Turn).role ≠ "system") := by
  decide

/-- C6 (amended): saving any transcript and loading the same file yields
the identical ordered sequence of (role, content) pairs; consequently a
system turn at index 0 of the saved transcript is at index 0 of the
loaded one (but load performs no relocation, so a system turn saved at
a later index stays at that index). -/
theorem save_load_roundtrip (fs : FS) (c : CHATGPT) (filename : String) :
    ((load_chat_history (writeJsonFile fs filename c.messages) filename).fst =
        some (messagesToJson c.messages)) ∧
    (jsonToTurns (messagesToJson c.messages) = some c.messages) ∧
    (∀ t ts, c.messages = t :: ts → t.role = "system" →
      ((jsonToTurns (messagesToJson c.messages)).getD []).head? = some t) := by
  refine ⟨?_, jsonToTurns_messagesToJson c.messages, ?_⟩
  · simp [load_chat_history, writeJsonFile, List.lookup]
  · intro t ts hms _
    rw [jsonToTurns_messagesToJson, hms]
    rfl

/-- Witness for C6 (amended) at a two-turn transcript with the system
turn at index 0. -/
theorem save_load_roundtrip_witness :
    ((load_chat_history
        (writeJsonFile [] "f.json"
          (CHATGPT.mk "k" [⟨"system", "s"⟩, ⟨"user", "hi"⟩] 0 0).messages)
        "f.json").fst =
      some (messagesToJson [⟨"system", "s"⟩, ⟨"user", "hi"⟩])) ∧
    (jsonToTurns (messagesToJson [⟨"system", "s"⟩, ⟨"user", "hi"⟩]) =
      some [⟨"system", "s"⟩, ⟨"user", "hi"⟩]) ∧
    (((jsonToTurns (messagesToJson [⟨"system", "s"⟩, ⟨"user", "hi"⟩])).getD
        []).head? = some ⟨"system", "s"⟩) := by
  have h := save_load_roundtrip []
    (CHATGPT.mk "k" [⟨"system", "s"⟩, ⟨"user", "hi"⟩] 0 0) "f.json"
  exact ⟨h.1, h.2.1, h.2.2 ⟨"system", "s"⟩ [⟨"user", "hi"⟩] rfl rfl⟩

theorem digitChar_isDigit : ∀ m : Nat, m < 10 → (Nat.digitChar m).isDigit = true := by
  decide

theorem toDigitsCore_isDigit (fuel : Nat) : ∀ (n : Nat) (acc : List Char),
    (∀ ch ∈ acc, ch.isDigit = true) →
    ∀ ch ∈ Nat.toDigitsCore 10 fuel n acc, ch.isDigit = true := by
  induction fuel with
  | zero =>
    intro n acc hacc ch hch
    exact hacc ch hch
  | succ fuel ih =>
    intro n acc hacc ch hch
    have hd : (Nat.digitChar (n % 10)).isDigit = true :=
      digitChar_isDigit _ (Nat.mod_lt n (by omega))
    have hacc2 : ∀ c ∈ Nat.digitChar (n % 10) :: acc, c.isDigit = true := by
      intro c hc
      rcases List.mem_cons.mp hc with h1 | h1
      · rw [h1]; exact hd
      · exact hacc c h1
    simp only [Nat.toDigitsCore] at hch
    split at hch
    · exact hacc2 ch hch
    · exact ih _ _ hacc2 ch hch

theorem toDigits_isDigit (n : Nat) :
    ∀ ch ∈ Nat.toDigits 10 n, ch.isDigit = true := by
  unfold Nat.toDigits
  exact toDigitsCore_isDigit _ _ [] (by simp)

theorem intStr_ne_abc (n : Int) : intStr n ≠ "abc" := by
  intro h
  have hd : intStrData n = ['a', 'b', 'c'] := congrArg String.data h
  unfold intStrData at hd
  by_cases hn : n < 0
  · rw [if_pos hn] at hd
    simp at hd
  · rw [if_neg hn] at hd
    rw [List.nil_append] at hd
    have ha : 'a' ∈ Nat.toDigits 10 n.natAbs := by
      rw [hd]; exact List.mem_cons_self _ _
    have := toDigits_isDigit n.natAbs 'a' ha
    simp at this

theorem dot_mem_decStrData (d : Dec) : '.' ∈ decStrData d := by
  unfold decStrData
  simp

theorem decStr_ne (d : Dec) (s : String) (hs : '.' ∉ s.data) : decStr d ≠ s := by
  intro h
  apply hs
  rw [← h]
  exact dot_mem_decStrData d

theorem pyStr_ne_abc (x : PyNum) : pyStr x ≠ "abc" := by
  cases x with
  | int n => exact intStr_ne_abc n
  | float d => exact decStr_ne d "abc" (by decide)

/-- Counterexample to C7 as stated: not every current timeout value lets
`/timeout 30` store the float `30.0`.  With the startup integer timeout
30 (from `OPENAI_API_TIMEOUT=30`), `"30" != str(settings.timeout)` is
false, so `handle_command` prints `No cahnge.` and the timeout stays the
integer 30, never becoming a float. -/
theorem timeout_command_counterexample :
    (handle_command "/timeout 30" (CHATGPT.init "k")
        (ChatSettings.init 30) "p").settings.timeout = PyNum.int 30 ∧
    PyNum.int 30 ≠ PyNum.float ⟨30, 0⟩ ∧
    Effect.print "[dim]No cahnge." ∈
      (handle_command "/timeout 30" (CHATGPT.init "k")
        (ChatSettings.init 30) "p").effects := by
  decide

/-- C7 (amended): for every settings state, `/timeout abc` reports the
numeric-parse error and leaves the timeout unchanged; and `/timeout 30`
stores the float `30.0` (the decimal `⟨30, 0⟩`, of rational value 30)
unless the current timeout already stringifies to `"30"` — i.e. it is
the startup integer 30 — in which case the command is a reported no-op
that leaves the numerically-equal integer in place. -/
theorem timeout_command_spec (c : CHATGPT) (st : ChatSettings) (promptReply : String) :
    ((handle_command "/timeout abc" c st promptReply).settings = st ∧
      Effect.print "[red]Input must be a number" ∈
        (handle_command "/timeout abc" c st promptReply).effects) ∧
    (pyStr st.timeout ≠ "30" →
      (handle_command "/timeout 30" c st promptReply).settings.timeout =
        PyNum.float ⟨30, 0⟩) ∧
    (pyStr st.timeout = "30" →
      (handle_command "/timeout 30" c st promptReply).settings = st ∧
        Effect.print "[dim]No cahnge." ∈
          (handle_command "/timeout 30" c st promptReply).effects) ∧
    Dec.val ⟨30, 0⟩ = 30 := by
  have h1 : handle_command "/timeout abc" c st promptReply =
      (if ("abc" : String) ≠ pyStr st.timeout then
        { exit := .normal, chat := c, settings := (st.set_timeout "abc").settings
          effects := (st.set_timeout "abc").effects }
      else
        { exit := .normal, chat := c, settings := st
          effects := [.print "[dim]No cahnge."] }) := rfl
  have h2 : handle_command "/timeout 30" c st promptReply =
      (if ("30" : String) ≠ pyStr st.timeout then
        { exit := .normal, chat := c, settings := (st.set_timeout "30").settings
          effects := (st.set_timeout "30").effects }
      else
        { exit := .normal, chat := c, settings := st
          effects := [.print "[dim]No cahnge."] }) := rfl
  have habc : ("abc" : String) ≠ pyStr st.timeout :=
    fun h => pyStr_ne_abc st.timeout h.symm
  refine ⟨?_, ?_, ?_, ?_⟩
  · rw [h1, if_pos habc]
    exact ⟨rfl, List.mem_singleton_self _⟩
  · intro h30
    rw [h2, if_pos (fun h => h30 h.symm)]
    rfl
  · intro h30
    rw [h2, if_neg (by simp [h30])]
    exact ⟨rfl, List.mem_singleton_self _⟩
  · norm_num [Dec.val]

/-- Witness for C7 (amended) at the default settings (integer timeout
20): `/timeout abc` is rejected and `/timeout 30` stores the float. -/
theorem timeout_command_spec_witness :
    ((handle_command "/timeout abc" (CHATGPT.init "k") (ChatSettings.init 20)
          "p").settings = ChatSettings.init 20 ∧
      Effect.print "[red]Input must be a number" ∈
        (handle_command "/timeout abc" (CHATGPT.init "k") (ChatSettings.init 20)
          "p").effects) ∧
    (pyStr (ChatSettings.init 20).timeout ≠ "30" ∧
      (handle_command "/timeout 30" (CHATGPT.init "k") (ChatSettings.init 20)
          "p").settings.timeout = PyNum.float ⟨30, 0⟩) := by
  have h := timeout_command_spec (CHATGPT.init "k") (ChatSettings.init 20) "p"
  exact ⟨h.1, by decide, h.2.1 (by decide)⟩

/-- C8: a non-empty, non-command input line whose lower-cased text is one
of the fixed farewell words drives the loop to termination whenever
`send` returns at all (with a reply or with `None`) — the farewell check
runs after the send regardless of its success. -/
theorem farewell_terminates (message : String) (c : CHATGPT) (st : ChatSettings)
    (net : NetOutcome) (promptReply sysPath now : String)
    (h1 : pyStartsWith message "/" = false)
    (h2 : message ≠ "")
    (h3 : farewells.contains (pyLower message) = true)
    (h4 : net.isReturning = true) :
    (mainStep message c st net promptReply sysPath now).signal = .terminated := by
  have h3m : pyLower message ∈ farewells := by simpa using h3
  unfold mainStep
  rw [if_neg (by simp [h1]), if_neg h2]
  cases net with
  | keyboardInterrupt => simp [NetOutcome.isReturning] at h4
  | otherException e => simp [NetOutcome.isReturning] at h4
  | success u r => simp [CHATGPT.send, h3m]
  | http400 e => simp [CHATGPT.send, h3m]
  | readTimeout => simp [CHATGPT.send, h3m]
  | requestException e => simp [CHATGPT.send, h3m]

/-- Witness for C8: the message `Bye` terminates the loop even though the
send timed out and no reply was obtained. -/
theorem farewell_terminates_witness :
    pyStartsWith "Bye" "/" = false ∧ "Bye" ≠ "" ∧
    farewells.contains (pyLower "Bye") = true ∧
    NetOutcome.readTimeout.isReturning = true ∧
    (mainStep "Bye" (CHATGPT.init "k") (ChatSettings.init 20) .readTimeout
        "p" "." "t").signal = .terminated :=
  ⟨by decide, by decide, by decide, by decide,
   farewell_terminates "Bye" (CHATGPT.init "k") (ChatSettings.init 20)
     .readTimeout "p" "." "t" (by decide) (by decide) (by decide) (by decide)⟩

theorem pyLowerChar_not_upper (c : Char) : (pyLowerChar c).isUpper = false := by
  unfold pyLowerChar
  split
  · rename_i h
    simp only [Char.isUpper, Bool.and_eq_true, decide_eq_true_eq] at h
    obtain ⟨h1, h2⟩ := h
    have h1a : 65 ≤ c.toNat := by
      have := UInt32.le_def.mp h1
      simpa [UInt32.toNat, BitVec.le_def] using this
    have h2a : c.toNat ≤ 90 := by
      have := UInt32.le_def.mp h2
      simpa [UInt32.toNat, BitVec.le_def] using this
    have hvalid : (c.toNat + 32).isValidChar := Or.inl (by omega)
    rw [Char.ofNat, dif_pos hvalid]
    simp only [Char.isUpper, Char.ofNatAux, UInt32.le_def, BitVec.le_def,
      BitVec.toNat_ofNatLt]
    simp only [Bool.and_eq_false_iff, decide_eq_false_iff_not]
    right
    intro hle
    have h90 : (90 : UInt32).toBitVec.toNat = 90 := by decide
    omega
  · rename_i h
    simpa using h

theorem pyLower_not_upper (s : String) :
    ∀ ch ∈ (pyLower s).data, ch.isUpper = false := by
  intro ch hch
  simp only [pyLower, List.mem_map] at hch
  obtain ⟨c, _, rfl⟩ := hch
  exact pyLowerChar_not_upper c

/-- C9: every input line beginning with `/` is dispatched to
`handle_command` as the stripped, fully lower-cased line, whose
characters contain no upper-case letter — so the `/save` and `/system`
arguments are received in lowercase and the original casing is never
preserved, as the two concrete runs show: `/save MyChat.JSON` writes the
file `mychat.json`, and `/system You ARE Bob.` installs the system
prompt `you are bob.`. -/
theorem command_line_lowercased (message : String) (c : CHATGPT)
    (st : ChatSettings) (net : NetOutcome) (promptReply sysPath now : String)
    (h : pyStartsWith message "/" = true) :
    (mainStep message c st net promptReply sysPath now =
        command_step (pyLower (pyStrip message)) c st promptReply) ∧
    (∀ ch ∈ (pyLower (pyStrip message)).data, ch.isUpper = false) ∧
    ((mainStep "/save MyChat.JSON" (CHATGPT.init "k") (ChatSettings.init 20) net
        "p" "." "t").effects =
      [Effect.saveFile "mychat.json" (CHATGPT.init "k").messages,
       Effect.print "[dim]Chat history saved to: [bright_magenta]mychat.json"]) ∧
    ((mainStep "/system You ARE Bob." (CHATGPT.init "k") (ChatSettings.init 20) net
        "p" "." "t").chat.messages = [⟨"system", "you are bob."⟩]) := by
  refine ⟨?_, pyLower_not_upper _, rfl, rfl⟩
  unfold mainStep
  rw [if_pos (by simp [h])]

/-- Witness for C9 at a mixed-case command line. -/
theorem command_line_lowercased_witness :
    pyStartsWith "/Save MyChat.JSON" "/" = true ∧
    (mainStep "/Save MyChat.JSON" (CHATGPT.init "k") (ChatSettings.init 20)
        .readTimeout "p" "." "t" =
      command_step (pyLower (pyStrip "/Save MyChat.JSON")) (CHATGPT.init "k")
        (ChatSettings.init 20) "p") ∧
    (∀ ch ∈ (pyLower (pyStrip "/Save MyChat.JSON")).data, ch.isUpper = false) :=
  ⟨by decide,
   (command_line_lowercased "/Save MyChat.JSON" (CHATGPT.init "k")
      (ChatSettings.init 20) .readTimeout "p" "." "t" (by decide)).1,
   (command_line_lowercased "/Save MyChat.JSON" (CHATGPT.init "k")
      (ChatSettings.init 20) .readTimeout "p" "." "t" (by decide)).2.1⟩

theorem opApply_preserves_nonempty (c : CHATGPT) (op : Op)
    (h : c.messages ≠ []) : (opApply c op).messages ≠ [] := by
  cases op with
  | sendMsg m t sp now net =>
    cases net <;> simp [opApply, CHATGPT.send, dropLast_append_one, h]
  | undo =>
    simp only [opApply, undo_command]
    split
    · rename_i hlen
      intro hnil
      have hlen2 : c.messages.dropLast.dropLast.length = c.messages.length - 1 - 1 := by
        simp [List.length_dropLast]
      have hz : c.messages.dropLast.dropLast = [] := hnil
      rw [hz] at hlen2
      simp at hlen2
      omega
    · exact h
  | modifySystem nc =>
    cases hm : c.messages with
    | nil => exact absurd hm h
    | cons m0 rest =>
      by_cases hr : m0.role = "system" <;>
        simp [opApply, CHATGPT.modify_system_prompt, hm, hr]

/-- C10: starting from the seeded initial state, after any sequence of
session-core operations (sends with arbitrary outcomes, undos,
system-prompt modifications) the transcript still has at least one turn,
and consequently the `messages[-1]` access of `/last` and the
`messages[0]` access of `/system` never hit an empty transcript (no
`IndexError`). -/
theorem transcript_never_empty (api_key : String) (ops : List Op)
    (st : ChatSettings) (promptReply : String) :
    ((ops.foldl opApply (CHATGPT.init api_key)).messages ≠ []) ∧
    ((handle_command "/last" (ops.foldl opApply (CHATGPT.init api_key)) st
        promptReply).exit ≠ .raisedIndexError) ∧
    ((handle_command "/system x" (ops.foldl opApply (CHATGPT.init api_key)) st
        promptReply).exit ≠ .raisedIndexError) := by
  have key : ∀ (l : List Op) (c : CHATGPT), c.messages ≠ [] →
      (l.foldl opApply c).messages ≠ [] := by
    intro l
    induction l with
    | nil => exact fun c h => h
    | cons op l ih => exact fun c h => ih _ (opApply_preserves_nonempty c op h)
  have hne : (ops.foldl opApply (CHATGPT.init api_key)).messages ≠ [] :=
    key ops _ (by simp [CHATGPT.init])
  refine ⟨hne, ?_, ?_⟩
  · generalize hg : ops.foldl opApply (CHATGPT.init api_key) = cf at hne ⊢
    obtain ⟨k2, msgs, tt, ct⟩ := cf
    have hl : handle_command "/last" (CHATGPT.mk k2 msgs tt ct) st promptReply =
        (match msgs.getLast? with
         | none =>
           { exit := .raisedIndexError, chat := CHATGPT.mk k2 msgs tt ct
             settings := st, effects := [] }
         | some reply =>
           { exit := .normal, chat := CHATGPT.mk k2 msgs tt ct
             settings := st, effects := print_message reply st }) := rfl
    cases hg2 : msgs.getLast? with
    | none =>
      exact absurd (List.getLast?_eq_none_iff.mp hg2) (by simpa using hne)
    | some reply =>
      rw [hl, hg2]
      simp
  · generalize hg : ops.foldl opApply (CHATGPT.init api_key) = cf at hne ⊢
    obtain ⟨k2, msgs, tt, ct⟩ := cf
    cases msgs with
    | nil => exact (hne rfl).elim
    | cons m0 rest =>
      have hs : handle_command "/system x" (CHATGPT.mk k2 (m0 :: rest) tt ct) st
            promptReply =
          (if ("x" : String) ≠ m0.content then
            { exit := ((CHATGPT.mk k2 (m0 :: rest) tt ct).modify_system_prompt "x").exit
              chat := ((CHATGPT.mk k2 (m0 :: rest) tt ct).modify_system_prompt "x").chat
              settings := st
              effects :=
                ((CHATGPT.mk k2 (m0 :: rest) tt ct).modify_system_prompt "x").effects }
          else
            { exit := .normal, chat := CHATGPT.mk k2 (m0 :: rest) tt ct
              settings := st, effects := [.print "[dim]No cahnge."] }) := rfl
      rw [hs]
      by_cases hx : ("x" : String) ≠ m0.content
      · rw [if_pos hx]
        by_cases hr : m0.role = "system" <;>
          simp [CHATGPT.modify_system_prompt, hr]
      · rw [if_neg hx]
        simp

/-- Witness for C10: after an undo attempt on the fresh session the
transcript is still non-empty. -/
theorem transcript_never_empty_witness :
    (([Op.undo].foldl opApply (CHATGPT.init "k")).messages ≠ []) ∧
    ((handle_command "/last" ([Op.undo].foldl opApply (CHATGPT.init "k"))
        (ChatSettings.init 20) "p").exit ≠ .raisedIndexError) :=
  ⟨(transcript_never_empty "k" [Op.undo] (ChatSettings.init 20) "p").1,
   (transcript_never_empty "k" [Op.undo] (ChatSettings.init 20) "p").2.1⟩

end Chat
